import Mathlib

/-!
Shallow embedding of the NeuroLearn course progression state machine.

The definitions below are translated from the repository source:
- `src/components/CourseView.tsx` (progression engine: lesson selection,
  skip/complete, quiz submission, lesson-content cache) and the profile
  view's course expansion handler in the same file;
- the generation service (`generateRoadmap`, `expandCourse`, `generateQuiz`)
  in `src/unnamed/part_000`;
- the application flow (`handleClarificationAnswer`) in `src/App.tsx`;
- the data model in `src/unnamed/part_002` (types).

Machine conventions: JavaScript arrays become `List`, optional fields become
`Option`, JS string truthiness (`if (x)`) becomes `jsTruthy`, and an
out-of-range indexing that would throw a `TypeError` in JS (leaving React
state unchanged, since the state setter is never reached) is modelled as a
no-op; theorems about in-range behaviour carry explicit bounds hypotheses.
-/

namespace NeuroLearn

/-- Lesson status enum from `src/unnamed/part_002`: 'locked' | 'unlocked' | 'completed'. -/
inductive LessonStatus where
  | locked
  | unlocked
  | completed
deriving DecidableEq, Repr

/-- QuizQuestion from `src/unnamed/part_002`. -/
structure QuizQuestion where
  question : String
  options : List String
  correctAnswerIndex : Nat
deriving DecidableEq, Repr

/-- CodingChallenge from `src/unnamed/part_002`. -/
structure CodingChallenge where
  id : String
  title : String
  description : String
  starterCode : String
  solutionReference : String
  hint : String
deriving DecidableEq, Repr

/-- Lesson from `src/unnamed/part_002`; optional generated fields default to absent. -/
structure Lesson where
  id : String
  title : String
  description : String
  status : LessonStatus
  content : Option String := none
  imageUrl : Option String := none
  videoUrl : Option String := none
  quiz : Option (List QuizQuestion) := none
  codingChallenges : Option (List CodingChallenge) := none
deriving DecidableEq, Repr

/-- Module from `src/unnamed/part_002`. -/
structure Module where
  id : String
  title : String
  description : String
  lessons : List Lesson
deriving DecidableEq, Repr

/-- Course from `src/unnamed/part_002`. -/
structure Course where
  id : String
  topic : String
  modules : List Module
  currentModuleIndex : Nat
  currentLessonIndex : Nat
  createdAt : Nat
deriving DecidableEq, Repr

/-- Per-lesson view substate of `CourseViewContent` (`viewStage`). -/
inductive ViewStage where
  | READING
  | CHALLENGE
  | QUIZ
deriving DecidableEq, Repr

/-- JS truthiness of an optional string: defined and non-empty. -/
def jsTruthy : Option String → Bool
  | none => false
  | some s => s != ""

/-- Replace the element at an index by applying a function; out of range is a no-op. -/
def modifyAt (f : α → α) : Nat → List α → List α
  | _, [] => []
  | 0, a :: as => f a :: as
  | n + 1, a :: as => a :: modifyAt f n as

/-- Map with the element index, starting the count at a given offset. -/
def mapIdxFrom (f : Nat → α → β) : Nat → List α → List β
  | _, [] => []
  | n, a :: as => f n a :: mapIdxFrom f (n + 1) as

/-- The lesson stored at module index `m`, lesson index `l` (JS `modules[m].lessons[l]`). -/
def lessonAt (mods : List Module) (m l : Nat) : Option Lesson :=
  (mods[m]?).bind fun md => md.lessons[l]?

/-- Status of the lesson at a position, when that position exists. -/
def statusIn (mods : List Module) (m l : Nat) : Option LessonStatus :=
  (lessonAt mods m l).map (·.status)

/-- Status of a course's lesson at a position. -/
def statusAt (c : Course) (m l : Nat) : Option LessonStatus :=
  statusIn c.modules m l

/-- Number of lessons of module `m` (JS `modules[m].lessons.length`). -/
def lessonCount (mods : List Module) (m : Nat) : Nat :=
  ((mods[m]?).map fun md => md.lessons.length).getD 0

/-- Functional rendering of the JS in-place mutation
`modules[m].lessons[l].status = st`; a no-op when the position is absent. -/
def setStatus (mods : List Module) (m l : Nat) (st : LessonStatus) : List Module :=
  modifyAt (fun md => { md with lessons := modifyAt (fun ls => { ls with status := st }) l md.lessons }) m mods

/-- Identifier of the active lesson (`activeLesson?.id`), the `useEffect` dependency
that drives `loadLesson`. -/
def activeLessonId (c : Course) : Option String :=
  (lessonAt c.modules c.currentModuleIndex c.currentLessonIndex).map (·.id)

/-- CourseView.tsx `markLessonCompleted`: sets the active lesson's status to completed. -/
def markLessonCompleted (c : Course) : Course :=
  { c with modules := setStatus c.modules c.currentModuleIndex c.currentLessonIndex .completed }

/-- CourseView.tsx `handleSkipToPractice`: `markLessonCompleted()` then
`setViewStage('CHALLENGE')`. -/
def handleSkipToPractice (c : Course) : Course × ViewStage :=
  (markLessonCompleted c, ViewStage.CHALLENGE)

/-- CourseView.tsx `handleLessonSelect`: a silent no-op when the target is locked,
otherwise updates the current indices. A target position that does not exist would
throw in JS before any state update; modelled as a no-op. -/
def handleLessonSelect (c : Course) (m l : Nat) : Course :=
  match lessonAt c.modules m l with
  | none => c
  | some t =>
    if t.status = LessonStatus.locked then c
    else { c with currentModuleIndex := m, currentLessonIndex := l }

/-- The next-lesson position computed inside CourseView.tsx `submitQuiz`:
`(m, l+1)` while that stays inside module `m`, otherwise `(m+1, 0)`. -/
def nextPos (c : Course) : Nat × Nat :=
  if c.currentLessonIndex + 1 ≥ lessonCount c.modules c.currentModuleIndex then
    (c.currentModuleIndex + 1, 0)
  else
    (c.currentModuleIndex, c.currentLessonIndex + 1)

/-- CourseView.tsx `submitQuiz`: marks the active lesson completed, then sets the
status of the next position to unlocked — unconditionally — when that position
exists. Note the handler reads no quiz answers and performs no validation; the
only gate is the UI button disabled by `isAllAnswered`. An out-of-range current
position would throw in JS before any state update; modelled as a no-op. -/
def submitQuiz (c : Course) : Course :=
  match lessonAt c.modules c.currentModuleIndex c.currentLessonIndex with
  | none => c
  | some _ =>
    let mods1 := setStatus c.modules c.currentModuleIndex c.currentLessonIndex .completed
    let nm := (nextPos c).1
    let nl := (nextPos c).2
    if nm < mods1.length ∧ nl < lessonCount mods1 nm then
      { c with modules := setStatus mods1 nm nl .unlocked }
    else
      { c with modules := mods1 }

/-- Composite lesson-selection step: `handleLessonSelect` plus the `useEffect`
keyed on `activeLesson?.id` that resets the substate to READING via `loadLesson`.
When the active lesson id does not change (in particular when re-selecting the
already-active lesson), the effect does not fire and the substate is kept. -/
def selectLesson (c : Course) (stage : ViewStage) (m l : Nat) : Course × ViewStage :=
  let c' := handleLessonSelect c m l
  if activeLessonId c' = activeLessonId c then (c', stage) else (c', ViewStage.READING)

/-- ProfileView `handleConfirmExpand` (CourseView.tsx): appends the service's new
modules to the course's module list, changing nothing else. -/
def handleConfirmExpand (c : Course) (newModules : List Module) : Course :=
  { c with modules := c.modules ++ newModules }

/-- Raw lesson record as parsed from the model's roadmap JSON. -/
structure RawLesson where
  title : String
  description : String
deriving DecidableEq, Repr

/-- Raw module record as parsed from the model's roadmap JSON. -/
structure RawModule where
  title : String
  description : String
  lessons : List RawLesson
deriving DecidableEq, Repr

/-- The per-lesson mapping inside `generateRoadmap` (src/unnamed/part_000):
status is unlocked exactly at module 0, lesson 0, locked everywhere else. -/
def roadmapLesson (mIdx lIdx : Nat) (l : RawLesson) : Lesson :=
  { id := "mod-" ++ toString mIdx ++ "-less-" ++ toString lIdx,
    title := l.title, description := l.description,
    status := if mIdx = 0 ∧ lIdx = 0 then .unlocked else .locked }

/-- The module mapping inside `generateRoadmap` (src/unnamed/part_000). -/
def roadmapModules (raw : List RawModule) : List Module :=
  mapIdxFrom (fun mIdx m =>
    { id := "mod-" ++ toString mIdx, title := m.title, description := m.description,
      lessons := mapIdxFrom (fun lIdx l => roadmapLesson mIdx lIdx l) 0 m.lessons }) 0 raw

/-- The module mapping inside the service `expandCourse` (src/unnamed/part_000):
module ids continue from `currentModuleCount`, and every new lesson's status is
locked. -/
def expandCourse (currentModuleCount : Nat) (raw : List RawModule) : List Module :=
  mapIdxFrom (fun mIdx m =>
    { id := "mod-" ++ toString (currentModuleCount + mIdx),
      title := m.title, description := m.description,
      lessons := mapIdxFrom (fun lIdx l =>
        { id := "mod-" ++ toString (currentModuleCount + mIdx) ++ "-less-" ++ toString lIdx,
          title := l.title, description := l.description,
          status := LessonStatus.locked }) 0 m.lessons }) 0 raw

/-- Shape of a parsed roadmap response, after `JSON.parse` of the cleaned text.
`arr` is a top-level array; `objModules` / `objData` are the envelope keys the
code probes (`parsed.modules || parsed.data`); `objOther` is any other parsed
value, for which `rawModules` becomes `undefined` and `rawModules.map` throws. -/
inductive RoadmapPayload where
  | arr (ms : List RawModule)
  | objModules (ms : List RawModule)
  | objData (ms : List RawModule)
  | objOther
deriving DecidableEq, Repr

/-- Service `generateRoadmap` (src/unnamed/part_000), as a function of the parsed
response: `none` stands for `JSON.parse` throwing (caught and rethrown as the
parse error); `objOther` makes the subsequent `.map` throw a TypeError which also
propagates to the caller. Successful parses run the `roadmapModules` mapping. -/
def generateRoadmap : Option RoadmapPayload → Except String (List Module)
  | none => .error "Failed to parse Mistral roadmap JSON"
  | some (.arr ms) => .ok (roadmapModules ms)
  | some (.objModules ms) => .ok (roadmapModules ms)
  | some (.objData ms) => .ok (roadmapModules ms)
  | some .objOther => .error "TypeError: rawModules is undefined"

/-- Shape of a parsed quiz response: a top-level array, an object with a
`questions` key, or anything else (for which `data.questions || []` yields `[]`). -/
inductive QuizPayload where
  | arr (qs : List QuizQuestion)
  | objQuestions (qs : List QuizQuestion)
  | other
deriving DecidableEq, Repr

/-- Service `generateQuiz` (src/unnamed/part_000) as a function of the parsed
response; `none` stands for the network call or `JSON.parse` throwing, which the
surrounding try/catch converts to the empty list. -/
def generateQuiz : Option QuizPayload → List QuizQuestion
  | none => []
  | some (.arr qs) => qs
  | some (.objQuestions qs) => qs
  | some .other => []

/-- JS sparse-array write `newAnswers[i] = v` on a copy: in-range writes set the
slot; beyond-the-end writes pad the holes with undefined (`none`). -/
def setPad (answers : List (Option Nat)) (i : Nat) (v : Nat) : List (Option Nat) :=
  if i < answers.length then answers.set i (some v)
  else answers ++ List.replicate (i - answers.length) none ++ [some v]

/-- CourseView.tsx `handleQuizAnswer`: ignored after submission, otherwise records
the chosen option index for the question. -/
def handleQuizAnswer (quizSubmitted : Bool) (answers : List (Option Nat))
    (qIndex optionIndex : Nat) : List (Option Nat) :=
  if quizSubmitted then answers else setPad answers qIndex optionIndex

/-- CourseView.tsx `isAllAnswered`:
`quiz.length > 0 && quizAnswers.filter(a => a !== undefined).length === quiz.length`.
This is the only gate on quiz submission (it disables the submit button). -/
def isAllAnswered (quiz : List QuizQuestion) (answers : List (Option Nat)) : Bool :=
  decide (0 < quiz.length) && ((answers.filter (·.isSome)).length == quiz.length)

/-- Whether question `i` has a recorded answer. -/
def answered (answers : List (Option Nat)) (i : Nat) : Bool :=
  ((answers[i]?).bind id).isSome

/-- Outcomes the generation gateway returns to one run of `loadLesson`. -/
structure GenOracle where
  contentText : String
  quizData : List QuizQuestion
  challengeData : List CodingChallenge
  imgData : Option String
deriving DecidableEq, Repr

/-- Count of gateway calls issued by one run of `loadLesson`, per generator. -/
structure LoadCalls where
  contentCalls : Nat
  quizCalls : Nat
  challengeCalls : Nat
  illustrationCalls : Nat
deriving DecidableEq, Repr

/-- Normalisation `imgData || undefined` applied before storing the illustration. -/
def imgOrNone : Option String → Option String
  | none => none
  | some s => if s = "" then none else some s

/-- CourseView.tsx `loadLesson` effect, restricted to its effect on the Lesson and
the gateway calls it issues. Cached branch (`activeLesson.content` truthy): no
generation, except that a lesson with neither `imageUrl` nor `videoUrl` re-fetches
only the illustration. Uncached branch: one call each to content, quiz, challenge
and illustration generation, and all four results are stored on the lesson. -/
def loadLesson (gw : GenOracle) (ls : Lesson) : Lesson × LoadCalls :=
  if jsTruthy ls.content then
    if !jsTruthy ls.imageUrl && !jsTruthy ls.videoUrl then
      let ls' := match imgOrNone gw.imgData with
        | some img => { ls with imageUrl := some img }
        | none => ls
      (ls', ⟨0, 0, 0, 1⟩)
    else (ls, ⟨0, 0, 0, 0⟩)
  else
    let ls' : Lesson :=
      { ls with
        content := some gw.contentText, quiz := some gw.quizData,
        codingChallenges := some gw.challengeData, imageUrl := imgOrNone gw.imgData }
    (ls', ⟨1, 1, 1, 1⟩)

/-- AppState from `src/unnamed/part_002`. -/
inductive AppState where
  | INITIAL
  | CLARIFYING
  | GENERATING
  | LEARNING
  | CREATIVE
  | PROFILE
deriving DecidableEq, Repr

/-- ClarificationState from `src/unnamed/part_002`. -/
structure ClarificationState where
  questions : List String
  answers : List String
  currentQuestionIndex : Nat
deriving DecidableEq, Repr

/-- The slice of App.tsx state the course-creation flow touches. -/
structure AppModel where
  appState : AppState
  courses : List Course
  activeCourseId : Option String
  clarification : ClarificationState
  topic : String
deriving DecidableEq, Repr

/-- App.tsx `handleClarificationAnswer`: appends the answer and advances the
question index; when that was the final answer, runs roadmap generation — on
success appending a whole new Course and activating it, on any thrown error
(network, JSON parse, shape mismatch) leaving the course list and active id
untouched and returning the app to INITIAL. The roadmap result, the generated
course id and the creation timestamp are passed in as parameters. -/
def handleClarificationAnswer (s : AppModel) (answer : String)
    (roadmap : Except String (List Module)) (newId : String) (now : Nat) : AppModel :=
  let nextAnswers := s.clarification.answers ++ [answer]
  let nextIndex := s.clarification.currentQuestionIndex + 1
  let s1 := { s with clarification :=
    { questions := s.clarification.questions, answers := nextAnswers,
      currentQuestionIndex := nextIndex } }
  if nextIndex ≥ s.clarification.questions.length then
    match roadmap with
    | Except.ok mods =>
      let newCourse : Course :=
        { id := newId, topic := s.topic, modules := mods,
          currentModuleIndex := 0, currentLessonIndex := 0, createdAt := now }
      { s1 with courses := s1.courses ++ [newCourse],
                activeCourseId := some newId, appState := AppState.LEARNING }
    | Except.error _ => { s1 with appState := AppState.INITIAL }
  else s1

/-- The progression operations of the engine: selecting a lesson, completing the
active lesson via skip, submitting the quiz, and expanding the course with a
gateway payload of new modules. -/
inductive ProgOp where
  | select (m l : Nat)
  | skip
  | submit
  | expand (raw : List RawModule)
deriving DecidableEq, Repr

/-- Apply one progression operation to a course. -/
def applyOp (c : Course) : ProgOp → Course
  | .select m l => handleLessonSelect c m l
  | .skip => markLessonCompleted c
  | .submit => submitQuiz c
  | .expand raw => handleConfirmExpand c (expandCourse c.modules.length raw)

/-- Apply a sequence of progression operations. -/
def applyOps (c : Course) (ops : List ProgOp) : Course :=
  ops.foldl applyOp c

/-- Forward order on lesson statuses: locked < unlocked < completed. -/
def statusRank : LessonStatus → Nat
  | .locked => 0
  | .unlocked => 1
  | .completed => 2

/-- Concrete lesson constructor used by the example courses below. -/
def mkLesson (i : String) (st : LessonStatus) : Lesson :=
  { id := i, title := "t", description := "d", status := st }

/-- Concrete single-module course builder used by the example courses below. -/
def mkCourse (lessons : List Lesson) : Course :=
  { id := "c", topic := "top",
    modules := [{ id := "mod-0", title := "m", description := "d", lessons := lessons }],
    currentModuleIndex := 0, currentLessonIndex := 0, createdAt := 0 }

/-- A freshly generated course with one module of two lessons, exactly as
produced by the roadmap mapping: lesson 1 unlocked, lesson 2 locked. -/
def c1fresh : Course :=
  { id := "c", topic := "top",
    modules := roadmapModules [⟨"m1", "d", [⟨"l1", "d"⟩, ⟨"l2", "d"⟩]⟩],
    currentModuleIndex := 0, currentLessonIndex := 0, createdAt := 0 }

/-- A course whose active lesson 1 is being re-taken while its successor
lesson 2 is already completed. -/
def c2course : Course :=
  mkCourse [mkLesson "mod-0-less-0" .completed, mkLesson "mod-0-less-1" .completed]

/-- One quiz question, with no recorded answer for it. -/
def c3quiz : List QuizQuestion :=
  [{ question := "q", options := ["a", "b"], correctAnswerIndex := 0 }]

/-- A course whose single active lesson is unlocked and carries the quiz above. -/
def c3course : Course :=
  mkCourse [{ mkLesson "mod-0-less-0" .unlocked with quiz := some c3quiz }]

/-- A course whose single lesson is unlocked and currently active. -/
def c4course : Course :=
  mkCourse [mkLesson "mod-0-less-0" .unlocked]

/-- The lesson at position (0,1) of c2course, for instantiating selection. -/
def c4target : Lesson := mkLesson "mod-0-less-1" .completed

/-- A cached lesson: content, quiz, challenges and illustration all present. -/
def c5cached : Lesson :=
  { mkLesson "a" .unlocked with
    content := some "txt", imageUrl := some "img",
    quiz := some [], codingChallenges := some [] }

/-- An uncached lesson and a gateway outcome that succeeds on every field. -/
def c5uncached : Lesson := mkLesson "a" .unlocked

/-- Gateway outcome with non-empty content and a non-empty illustration. -/
def c5oracle : GenOracle :=
  { contentText := "txt", quizData := [], challengeData := [], imgData := some "img" }

/-- A raw two-module payload, as the roadmap or expansion gateway returns it. -/
def c6raw : List RawModule :=
  [⟨"m1", "d", [⟨"l1", "d"⟩, ⟨"l2", "d"⟩]⟩, ⟨"m2", "d", [⟨"l3", "d"⟩]⟩]

/-- An app state that has just collected the last clarification answer. -/
def c7state : AppModel :=
  { appState := .GENERATING, courses := [c1fresh], activeCourseId := some "c",
    clarification := { questions := ["q1"], answers := [], currentQuestionIndex := 0 },
    topic := "top" }

/-- A course to be expanded. -/
def c8course : Course := c2course

/-- A one-module expansion payload. -/
def c8raw : List RawModule := [⟨"new", "d", [⟨"nl", "d"⟩]⟩]

/-- A fresh two-lesson course whose quiz failed to generate (empty quiz). -/
def c9course : Course :=
  mkCourse [mkLesson "mod-0-less-0" .unlocked, mkLesson "mod-0-less-1" .locked]

/-- A course used to witness the skip-frame properties. -/
def c10course : Course :=
  mkCourse [mkLesson "mod-0-less-0" .unlocked, mkLesson "mod-0-less-1" .locked]

end NeuroLearn

namespace NeuroLearn

theorem getElem?_mapIdxFrom (f : Nat → α → β) (xs : List α) :
    ∀ (n i : Nat), (mapIdxFrom f n xs)[i]? = (xs[i]?).map (f (n + i)) := by
  induction xs with
  | nil => intro n i; simp [mapIdxFrom]
  | cons a as ih =>
    intro n i
    cases i with
    | zero => simp [mapIdxFrom]
    | succ i => simp [mapIdxFrom, ih (n + 1) i, Nat.add_assoc, Nat.add_comm 1 i]

theorem length_mapIdxFrom (f : Nat → α → β) (xs : List α) :
    ∀ (n : Nat), (mapIdxFrom f n xs).length = xs.length := by
  induction xs with
  | nil => intro n; simp [mapIdxFrom]
  | cons a as ih => intro n; simp [mapIdxFrom, ih (n + 1)]

theorem length_modifyAt (f : α → α) :
    ∀ (n : Nat) (l : List α), (modifyAt f n l).length = l.length := by
  intro n l
  induction l generalizing n with
  | nil => cases n <;> simp [modifyAt]
  | cons a as ih => cases n <;> simp [modifyAt, ih]

theorem getElem?_modifyAt (f : α → α) :
    ∀ (n : Nat) (l : List α) (i : Nat),
      (modifyAt f n l)[i]? = if i = n then (l[i]?).map f else l[i]? := by
  intro n l
  induction l generalizing n with
  | nil => intro i; cases n <;> simp [modifyAt]
  | cons a as ih =>
    intro i
    cases n with
    | zero => cases i <;> simp [modifyAt]
    | succ n =>
      cases i with
      | zero => simp [modifyAt]
      | succ i =>
        have h2 : (i + 1 = n + 1) ↔ (i = n) := by omega
        simp only [modifyAt, List.getElem?_cons_succ, ih n i]
        rw [if_congr h2 rfl rfl]

end NeuroLearn

namespace NeuroLearn

theorem length_setStatus (mods : List Module) (m0 l0 : Nat) (st : LessonStatus) :
    (setStatus mods m0 l0 st).length = mods.length :=
  length_modifyAt _ _ _

theorem lessonCount_setStatus (mods : List Module) (m0 l0 : Nat) (st : LessonStatus) (m : Nat) :
    lessonCount (setStatus mods m0 l0 st) m = lessonCount mods m := by
  unfold lessonCount setStatus
  rw [getElem?_modifyAt]
  by_cases h : m = m0
  · subst h
    cases mods[m]? <;> simp [length_modifyAt]
  · simp [h]

theorem isSome_getElemQ (l : List α) (i : Nat) : l[i]?.isSome = true ↔ i < l.length := by
  constructor
  · intro hs
    by_contra hc
    rw [List.getElem?_eq_none_iff.mpr (Nat.le_of_not_lt hc)] at hs
    simp at hs
  · intro hlt
    rw [List.getElem?_eq_getElem hlt]
    rfl

theorem statusIn_setStatus (mods : List Module) (m0 l0 : Nat) (st : LessonStatus) (m l : Nat) :
    statusIn (setStatus mods m0 l0 st) m l =
      if m = m0 ∧ l = l0 then (statusIn mods m l).map (fun _ => st) else statusIn mods m l := by
  unfold statusIn lessonAt setStatus
  rw [getElem?_modifyAt]
  by_cases hm : m = m0
  · subst hm
    cases hmo : mods[m]? with
    | none => simp
    | some md =>
      simp only [eq_self_iff_true, if_true, true_and, Option.map_some', Option.some_bind]
      rw [getElem?_modifyAt]
      by_cases hl : l = l0
      · subst hl
        cases md.lessons[l]? <;> simp
      · simp [hl]
  · simp [hm]

theorem statusIn_append (mods more : List Module) (m l : Nat) :
    statusIn (mods ++ more) m l =
      if m < mods.length then statusIn mods m l else statusIn more (m - mods.length) l := by
  unfold statusIn lessonAt
  rw [List.getElem?_append]
  by_cases h : m < mods.length <;> simp [h]

theorem lessonAt_isSome (mods : List Module) (m l : Nat) :
    (lessonAt mods m l).isSome = true ↔ m < mods.length ∧ l < lessonCount mods m := by
  unfold lessonAt lessonCount
  cases hmo : mods[m]? with
  | none => simp
  | some md =>
    have hm : m < mods.length := by
      by_contra hc
      rw [List.getElem?_eq_none_iff.mpr (Nat.le_of_not_lt hc)] at hmo
      exact Option.noConfusion hmo
    simp [hm, isSome_getElemQ]

theorem nextPos_ne_current (c : Course) :
    ¬((nextPos c).1 = c.currentModuleIndex ∧ (nextPos c).2 = c.currentLessonIndex) := by
  unfold nextPos
  split
  · simp
  · simp

end NeuroLearn

namespace NeuroLearn

theorem modules_handleLessonSelect (c : Course) (m l : Nat) :
    (handleLessonSelect c m l).modules = c.modules := by
  unfold handleLessonSelect
  cases lessonAt c.modules m l with
  | none => rfl
  | some t =>
    by_cases h : t.status = LessonStatus.locked <;> simp [h]

theorem statusAt_handleLessonSelect (c : Course) (m0 l0 m l : Nat) :
    statusAt (handleLessonSelect c m0 l0) m l = statusAt c m l := by
  unfold statusAt
  rw [modules_handleLessonSelect]

theorem statusAt_markLessonCompleted (c : Course) (m l : Nat) :
    statusAt (markLessonCompleted c) m l =
      if m = c.currentModuleIndex ∧ l = c.currentLessonIndex then
        (statusAt c m l).map (fun _ => LessonStatus.completed)
      else statusAt c m l := by
  unfold markLessonCompleted statusAt
  exact statusIn_setStatus c.modules c.currentModuleIndex c.currentLessonIndex .completed m l

theorem indices_markLessonCompleted (c : Course) :
    (markLessonCompleted c).currentModuleIndex = c.currentModuleIndex
    ∧ (markLessonCompleted c).currentLessonIndex = c.currentLessonIndex := ⟨rfl, rfl⟩

theorem submitQuiz_of_none (c : Course)
    (h : lessonAt c.modules c.currentModuleIndex c.currentLessonIndex = none) :
    submitQuiz c = c := by
  unfold submitQuiz
  rw [h]

theorem indices_submitQuiz (c : Course) :
    (submitQuiz c).currentModuleIndex = c.currentModuleIndex
    ∧ (submitQuiz c).currentLessonIndex = c.currentLessonIndex := by
  unfold submitQuiz
  cases lessonAt c.modules c.currentModuleIndex c.currentLessonIndex with
  | none => exact ⟨rfl, rfl⟩
  | some t =>
    simp only
    split <;> exact ⟨rfl, rfl⟩

theorem statusAt_submitQuiz (c : Course) (m l : Nat)
    (hcur : (lessonAt c.modules c.currentModuleIndex c.currentLessonIndex).isSome = true) :
    statusAt (submitQuiz c) m l =
      if m = (nextPos c).1 ∧ l = (nextPos c).2 ∧
          (nextPos c).1 < c.modules.length ∧ (nextPos c).2 < lessonCount c.modules (nextPos c).1 then
        (statusAt c m l).map (fun _ => LessonStatus.unlocked)
      else if m = c.currentModuleIndex ∧ l = c.currentLessonIndex then
        (statusAt c m l).map (fun _ => LessonStatus.completed)
      else statusAt c m l := by
  obtain ⟨t, ht⟩ := Option.isSome_iff_exists.mp hcur
  have hne : ¬((nextPos c).1 = c.currentModuleIndex ∧ (nextPos c).2 = c.currentLessonIndex) :=
    nextPos_ne_current c
  unfold submitQuiz
  rw [ht]
  simp only
  rw [length_setStatus, lessonCount_setStatus]
  split
  case isTrue hguard =>
    show statusIn (setStatus (setStatus c.modules _ _ _) _ _ _) m l = _
    rw [statusIn_setStatus, statusIn_setStatus]
    by_cases hnext : m = (nextPos c).1 ∧ l = (nextPos c).2
    · obtain ⟨hm, hl⟩ := hnext
      subst hm
      subst hl
      simp [statusAt, hne, hguard.1, hguard.2]
    · by_cases hc : m = c.currentModuleIndex ∧ l = c.currentLessonIndex
      · obtain ⟨hm, hl⟩ := hc
        subst hm
        subst hl
        have hne2 : ¬(c.currentModuleIndex = (nextPos c).1 ∧ c.currentLessonIndex = (nextPos c).2) :=
          fun hh => hne ⟨hh.1.symm, hh.2.symm⟩
        have hne3 : ¬(c.currentModuleIndex = (nextPos c).1 ∧ c.currentLessonIndex = (nextPos c).2 ∧
            (nextPos c).1 < c.modules.length ∧ (nextPos c).2 < lessonCount c.modules (nextPos c).1) :=
          fun hh => hne2 ⟨hh.1, hh.2.1⟩
        simp [statusAt, hne2, hne3]
      · have hnot : ¬(m = (nextPos c).1 ∧ l = (nextPos c).2 ∧
            (nextPos c).1 < c.modules.length ∧ (nextPos c).2 < lessonCount c.modules (nextPos c).1) :=
          fun hh => hnext ⟨hh.1, hh.2.1⟩
        simp [statusAt, hnext, hc, hnot]
  case isFalse hguard =>
    show statusIn (setStatus c.modules _ _ _) m l = _
    rw [statusIn_setStatus]
    have hnot : ¬(m = (nextPos c).1 ∧ l = (nextPos c).2 ∧
        (nextPos c).1 < c.modules.length ∧ (nextPos c).2 < lessonCount c.modules (nextPos c).1) :=
      fun hh => hguard ⟨hh.2.2.1, hh.2.2.2⟩
    rw [if_neg hnot]
    rfl

end NeuroLearn

namespace NeuroLearn

theorem statusIn_roadmapModules (raw : List RawModule) (m l : Nat) :
    statusIn (roadmapModules raw) m l =
      ((raw[m]?).bind fun rm => rm.lessons[l]?).map
        (fun _ => if m = 0 ∧ l = 0 then LessonStatus.unlocked else LessonStatus.locked) := by
  unfold statusIn lessonAt roadmapModules
  rw [getElem?_mapIdxFrom]
  cases raw[m]? with
  | none => simp
  | some rm =>
    simp only [Nat.zero_add, Option.map_some', Option.some_bind]
    rw [getElem?_mapIdxFrom]
    cases rm.lessons[l]? with
    | none => simp
    | some rl => simp [roadmapLesson]

theorem statusIn_expandCourse (k : Nat) (raw : List RawModule) (m l : Nat) :
    statusIn (expandCourse k raw) m l =
      ((raw[m]?).bind fun rm => rm.lessons[l]?).map (fun _ => LessonStatus.locked) := by
  unfold statusIn lessonAt expandCourse
  rw [getElem?_mapIdxFrom]
  cases raw[m]? with
  | none => simp
  | some rm =>
    simp only [Nat.zero_add, Option.map_some', Option.some_bind]
    rw [getElem?_mapIdxFrom]
    cases rm.lessons[l]? with
    | none => simp
    | some rl => simp

theorem length_expandCourse (k : Nat) (raw : List RawModule) :
    (expandCourse k raw).length = raw.length :=
  length_mapIdxFrom _ _ _

theorem statusRank_le_two (st : LessonStatus) : statusRank st ≤ 2 := by
  cases st <;> simp [statusRank]

theorem statusRank_eq_zero (st : LessonStatus) (h : statusRank st = 0) : st = LessonStatus.locked := by
  cases st <;> simp [statusRank] at h ⊢

theorem stepStatus (c : Course) (op : ProgOp) (m l : Nat) (st : LessonStatus)
    (h : statusAt c m l = some st) :
    ∃ st', statusAt (applyOp c op) m l = some st' ∧
      (statusRank st ≤ statusRank st' ∨
        (st = LessonStatus.completed ∧ st' = LessonStatus.unlocked ∧
          op = ProgOp.submit ∧ m = (nextPos c).1 ∧ l = (nextPos c).2)) := by
  cases op with
  | select m0 l0 =>
    refine ⟨st, ?_, Or.inl (Nat.le_refl _)⟩
    rw [applyOp, statusAt_handleLessonSelect]
    exact h
  | skip =>
    rw [applyOp]
    by_cases hc : m = c.currentModuleIndex ∧ l = c.currentLessonIndex
    · refine ⟨LessonStatus.completed, ?_, Or.inl (statusRank_le_two st)⟩
      rw [statusAt_markLessonCompleted, if_pos hc, h]
      rfl
    · refine ⟨st, ?_, Or.inl (Nat.le_refl _)⟩
      rw [statusAt_markLessonCompleted, if_neg hc]
      exact h
  | submit =>
    rw [applyOp]
    cases hcur : lessonAt c.modules c.currentModuleIndex c.currentLessonIndex with
    | none =>
      refine ⟨st, ?_, Or.inl (Nat.le_refl _)⟩
      rw [submitQuiz_of_none c hcur]
      exact h
    | some t =>
      have hsome : (lessonAt c.modules c.currentModuleIndex c.currentLessonIndex).isSome = true := by
        rw [hcur]; rfl
      rw [statusAt_submitQuiz c m l hsome]
      by_cases hn : m = (nextPos c).1 ∧ l = (nextPos c).2 ∧
          (nextPos c).1 < c.modules.length ∧ (nextPos c).2 < lessonCount c.modules (nextPos c).1
      · refine ⟨LessonStatus.unlocked, ?_, ?_⟩
        · rw [if_pos hn, h]; rfl
        · cases st with
          | locked => exact Or.inl (by simp [statusRank])
          | unlocked => exact Or.inl (Nat.le_refl _)
          | completed => exact Or.inr ⟨rfl, rfl, rfl, hn.1, hn.2.1⟩
      · rw [if_neg hn]
        by_cases hc : m = c.currentModuleIndex ∧ l = c.currentLessonIndex
        · refine ⟨LessonStatus.completed, ?_, Or.inl (statusRank_le_two st)⟩
          rw [if_pos hc, h]
          rfl
        · refine ⟨st, ?_, Or.inl (Nat.le_refl _)⟩
          rw [if_neg hc]
          exact h
  | expand raw =>
    refine ⟨st, ?_, Or.inl (Nat.le_refl _)⟩
    have hm : m < c.modules.length := by
      have hs : (lessonAt c.modules m l).isSome = true := by
        unfold statusAt statusIn at h
        cases hx : lessonAt c.modules m l with
        | none => rw [hx] at h; exact Option.noConfusion h
        | some y => rfl
      exact ((lessonAt_isSome c.modules m l).mp hs).1
    rw [applyOp]
    show statusIn (c.modules ++ expandCourse c.modules.length raw) m l = some st
    rw [statusIn_append, if_pos hm]
    exact h

theorem applyOps_cons (c : Course) (op : ProgOp) (ops : List ProgOp) :
    applyOps c (op :: ops) = applyOps (applyOp c op) ops := rfl

theorem applyOps_no_relock (ops : List ProgOp) :
    ∀ (c : Course) (m l : Nat) (st : LessonStatus),
      statusAt c m l = some st → st ≠ LessonStatus.locked →
      ∃ st', statusAt (applyOps c ops) m l = some st' ∧ st' ≠ LessonStatus.locked := by
  induction ops with
  | nil => intro c m l st h hst; exact ⟨st, h, hst⟩
  | cons op ops ih =>
    intro c m l st h hst
    obtain ⟨st1, h1, hrel⟩ := stepStatus c op m l st h
    rw [applyOps_cons]
    refine ih (applyOp c op) m l st1 h1 ?_
    rcases hrel with hle | hexc
    · intro hlk
      subst hlk
      have : statusRank st = 0 := Nat.le_zero.mp hle
      exact hst (statusRank_eq_zero st this)
    · rw [hexc.2.1]
      intro hcontra
      exact LessonStatus.noConfusion hcontra

end NeuroLearn

namespace NeuroLearn

theorem filter_isSome_eq_length_iff (l : List (Option Nat)) :
    (l.filter (·.isSome)).length = l.length ↔ ∀ a ∈ l, a.isSome = true := by
  induction l with
  | nil => simp
  | cons a as ih =>
    cases ha : a.isSome with
    | true =>
      simp [List.filter_cons, ha, ih]
    | false =>
      have hle : (as.filter (·.isSome)).length ≤ as.length := List.length_filter_le _ _
      simp [List.filter_cons, ha]
      omega

theorem isAllAnswered_iff (quiz : List QuizQuestion) (answers : List (Option Nat))
    (hlen : answers.length ≤ quiz.length) :
    isAllAnswered quiz answers = true ↔
      (0 < quiz.length ∧ ∀ i, i < quiz.length → answered answers i = true) := by
  unfold isAllAnswered answered
  rw [Bool.and_eq_true, decide_eq_true_iff, Nat.beq_eq_true_eq]
  constructor
  · rintro ⟨hpos, hcount⟩
    refine ⟨hpos, ?_⟩
    have hfle : (answers.filter (·.isSome)).length ≤ answers.length := List.length_filter_le _ _
    have hlen_eq : answers.length = quiz.length := by omega
    have hall : ∀ a ∈ answers, a.isSome = true :=
      (filter_isSome_eq_length_iff answers).mp (by omega)
    intro i hi
    have hi' : i < answers.length := by omega
    rw [List.getElem?_eq_getElem hi']
    have hmem : answers[i] ∈ answers := List.getElem_mem hi'
    have hsome := hall _ hmem
    cases hx : answers[i] with
    | none => rw [hx] at hsome; exact Bool.noConfusion hsome
    | some v => simp
  · rintro ⟨hpos, hans⟩
    refine ⟨hpos, ?_⟩
    have hlast := hans (quiz.length - 1) (by omega)
    have hlen_ge : quiz.length ≤ answers.length := by
      by_contra hc
      have hnone : answers[quiz.length - 1]? = none :=
        List.getElem?_eq_none_iff.mpr (by omega)
      rw [hnone] at hlast
      simp at hlast
    have hlen_eq : answers.length = quiz.length := by omega
    have hall : ∀ a ∈ answers, a.isSome = true := by
      intro a hmem
      obtain ⟨i, hi, hget⟩ := List.mem_iff_getElem.mp hmem
      have := hans i (by omega)
      rw [List.getElem?_eq_getElem hi, hget] at this
      cases a with
      | none => simp at this
      | some v => rfl
    rw [(filter_isSome_eq_length_iff answers).mpr hall]
    omega

theorem length_setPad (answers : List (Option Nat)) (i v : Nat) :
    (setPad answers i v).length = max answers.length (i + 1) := by
  unfold setPad
  split
  case isTrue h => simp [List.length_set]; omega
  case isFalse h => simp [List.length_append, List.length_replicate]; omega

end NeuroLearn

namespace NeuroLearn

/-- C1 counterexample: starting from a freshly generated course (lesson 1
unlocked, lesson 2 locked), the reachable operation sequence
submit; select lesson 2; submit; select lesson 1; submit
first brings lesson 2 to completed and then regresses it to unlocked,
because submitQuiz sets the next position's status to unlocked
unconditionally. This refutes the claim that a completed lesson never
becomes unlocked afterwards. -/
theorem C1_counterexample :
    statusAt (applyOps c1fresh
      [ProgOp.submit, ProgOp.select 0 1, ProgOp.submit]) 0 1 = some LessonStatus.completed
    ∧ statusAt (applyOps c1fresh
      [ProgOp.submit, ProgOp.select 0 1, ProgOp.submit,
       ProgOp.select 0 0, ProgOp.submit]) 0 1 = some LessonStatus.unlocked := by
  decide

/-- C1 (amended): under every progression operation (selecting a lesson,
skip-completing the active lesson, submitting a quiz, expanding the course),
each lesson's status moves forward along locked → unlocked → completed, with
exactly one exception: submitQuiz sets the lesson at the next position to
unlocked unconditionally, so when that successor is already completed it
regresses from completed to unlocked. Consequently, over every operation
sequence, a lesson that is unlocked or completed never becomes locked again. -/
theorem C1_amended :
    (∀ (c : Course) (op : ProgOp) (m l : Nat) (st : LessonStatus),
        statusAt c m l = some st →
        ∃ st', statusAt (applyOp c op) m l = some st' ∧
          (statusRank st ≤ statusRank st' ∨
            (st = LessonStatus.completed ∧ st' = LessonStatus.unlocked ∧
              op = ProgOp.submit ∧ m = (nextPos c).1 ∧ l = (nextPos c).2)))
    ∧ (∀ (ops : List ProgOp) (c : Course) (m l : Nat) (st : LessonStatus),
        statusAt c m l = some st → st ≠ LessonStatus.locked →
        ∃ st', statusAt (applyOps c ops) m l = some st' ∧ st' ≠ LessonStatus.locked) :=
  ⟨stepStatus, applyOps_no_relock⟩

/-- Witness for C1 (amended) at a concrete input: lesson 1 of the fresh course,
unlocked at the start, is never locked after the regression sequence. -/
theorem C1_amended_witness :
    ∃ st', statusAt (applyOps c1fresh
      [ProgOp.submit, ProgOp.select 0 1, ProgOp.submit,
       ProgOp.select 0 0, ProgOp.submit]) 0 0 = some st' ∧ st' ≠ LessonStatus.locked :=
  C1_amended.2 [ProgOp.submit, ProgOp.select 0 1, ProgOp.submit,
       ProgOp.select 0 0, ProgOp.submit] c1fresh 0 0 LessonStatus.unlocked
    (by decide) (by decide)

/-- C2 counterexample: when the next lesson is already completed, submitQuiz is
not idempotent on it — the claim says its status is left unchanged, but the code
resets it from completed to unlocked. -/
theorem C2_counterexample :
    statusAt c2course 0 1 = some LessonStatus.completed
    ∧ statusAt (submitQuiz c2course) 0 1 = some LessonStatus.unlocked := by
  decide

/-- C2 (amended): for a course whose current lesson exists, submitQuiz marks that
lesson completed; the next position is (m, l+1) if that is still inside module m
and (m+1, 0) otherwise; if the next lesson exists its status is set to unlocked
unconditionally — a no-op when it is already unlocked, but a regression when it
is already completed; all other lessons and the current indices are unchanged. -/
theorem C2_amended :
    ∀ (c : Course),
      (lessonAt c.modules c.currentModuleIndex c.currentLessonIndex).isSome = true →
      ((submitQuiz c).currentModuleIndex = c.currentModuleIndex
        ∧ (submitQuiz c).currentLessonIndex = c.currentLessonIndex)
      ∧ statusAt (submitQuiz c) c.currentModuleIndex c.currentLessonIndex
          = some LessonStatus.completed
      ∧ nextPos c = (if c.currentLessonIndex + 1 < lessonCount c.modules c.currentModuleIndex
          then (c.currentModuleIndex, c.currentLessonIndex + 1)
          else (c.currentModuleIndex + 1, 0))
      ∧ (∀ t, lessonAt c.modules (nextPos c).1 (nextPos c).2 = some t →
          statusAt (submitQuiz c) (nextPos c).1 (nextPos c).2 = some LessonStatus.unlocked)
      ∧ (∀ m l, ¬(m = c.currentModuleIndex ∧ l = c.currentLessonIndex) →
          ¬(m = (nextPos c).1 ∧ l = (nextPos c).2) →
          statusAt (submitQuiz c) m l = statusAt c m l) := by
  intro c hcur
  have hne : ¬((nextPos c).1 = c.currentModuleIndex ∧ (nextPos c).2 = c.currentLessonIndex) :=
    nextPos_ne_current c
  refine ⟨indices_submitQuiz c, ?_, ?_, ?_, ?_⟩
  · rw [statusAt_submitQuiz c _ _ hcur, if_neg (fun hh => hne ⟨hh.1.symm, hh.2.1.symm⟩),
        if_pos ⟨rfl, rfl⟩]
    obtain ⟨t, ht⟩ := Option.isSome_iff_exists.mp hcur
    show (statusIn c.modules _ _).map _ = _
    unfold statusIn
    rw [ht]
    rfl
  · unfold nextPos
    split
    case isTrue h => rw [if_neg (by omega)]
    case isFalse h => rw [if_pos (by omega)]
  · intro t ht
    have hb : (lessonAt c.modules (nextPos c).1 (nextPos c).2).isSome = true := by
      rw [ht]; rfl
    obtain ⟨hm, hl⟩ := (lessonAt_isSome _ _ _).mp hb
    rw [statusAt_submitQuiz c _ _ hcur, if_pos ⟨rfl, rfl, hm, hl⟩]
    show (statusIn c.modules _ _).map _ = _
    unfold statusIn
    rw [ht]
    rfl
  · intro m l hc hn
    rw [statusAt_submitQuiz c _ _ hcur,
        if_neg (fun hh => hn ⟨hh.1, hh.2.1⟩), if_neg hc]

/-- Witness for C2 (amended) at a concrete input: submitting on the fresh course
completes lesson 1 and unlocks lesson 2. -/
theorem C2_amended_witness :
    statusAt (submitQuiz c1fresh) c1fresh.currentModuleIndex c1fresh.currentLessonIndex
      = some LessonStatus.completed
    ∧ statusAt (submitQuiz c1fresh) (nextPos c1fresh).1 (nextPos c1fresh).2
      = some LessonStatus.unlocked :=
  ⟨(C2_amended c1fresh (by decide)).2.1,
   (C2_amended c1fresh (by decide)).2.2.2.1
     (roadmapLesson 0 1 ⟨"l2", "d"⟩) (by decide)⟩

end NeuroLearn

namespace NeuroLearn

/-- C3 counterexample: with a one-question quiz and no recorded answer, the
submission handler neither fails with an InvalidState error (no such error
exists anywhere in the code) nor leaves statuses unchanged — invoked in that
state it still marks the active lesson completed. Only the UI gate
isAllAnswered (which is false here) prevents the call. -/
theorem C3_counterexample :
    isAllAnswered c3quiz [] = false
    ∧ statusAt c3course 0 0 = some LessonStatus.unlocked
    ∧ statusAt (submitQuiz c3course) 0 0 = some LessonStatus.completed := by
  decide

/-- C3 (amended): submission with a missing answer is prevented only by the UI:
the submit button is disabled unless isAllAnswered, which (for answer lists the
answer handler can produce, i.e. of length at most the quiz length) holds exactly
when the quiz is non-empty and every question index in [0, n) has a recorded
answer; the answer handler preserves that length bound; and the submitQuiz
handler itself performs no validation — it reads no answers and, whenever the
current lesson exists, marks it completed. There is no engine-level InvalidState
rejection. -/
theorem C3_amended :
    (∀ (quiz : List QuizQuestion) (answers : List (Option Nat)),
        answers.length ≤ quiz.length →
        (isAllAnswered quiz answers = true ↔
          (0 < quiz.length ∧ ∀ i, i < quiz.length → answered answers i = true)))
    ∧ (∀ (quiz : List QuizQuestion) (submitted : Bool) (answers : List (Option Nat)) (q opt : Nat),
        q < quiz.length → answers.length ≤ quiz.length →
        (handleQuizAnswer submitted answers q opt).length ≤ quiz.length)
    ∧ (∀ (c : Course),
        (lessonAt c.modules c.currentModuleIndex c.currentLessonIndex).isSome = true →
        statusAt (submitQuiz c) c.currentModuleIndex c.currentLessonIndex
          = some LessonStatus.completed) := by
  refine ⟨isAllAnswered_iff, ?_, ?_⟩
  · intro quiz submitted answers q opt hq hlen
    unfold handleQuizAnswer
    split
    · exact hlen
    · rw [length_setPad]
      omega
  · intro c hcur
    have hne : ¬((nextPos c).1 = c.currentModuleIndex ∧ (nextPos c).2 = c.currentLessonIndex) :=
      nextPos_ne_current c
    rw [statusAt_submitQuiz c _ _ hcur, if_neg (fun hh => hne ⟨hh.1.symm, hh.2.1.symm⟩),
        if_pos ⟨rfl, rfl⟩]
    obtain ⟨t, ht⟩ := Option.isSome_iff_exists.mp hcur
    show (statusIn c.modules _ _).map _ = _
    unfold statusIn
    rw [ht]
    rfl

/-- Witness for C3 (amended) at concrete inputs: with the one answer recorded the
gate accepts, and submitQuiz on the concrete course completes its active lesson. -/
theorem C3_amended_witness :
    isAllAnswered c3quiz [some 0] = true
    ∧ statusAt (submitQuiz c3course) c3course.currentModuleIndex c3course.currentLessonIndex
      = some LessonStatus.completed :=
  ⟨(C3_amended.1 c3quiz [some 0] (by decide)).mpr (by decide),
   C3_amended.2.2 c3course (by decide)⟩

/-- C4 counterexample: re-selecting the already-active (non-locked) lesson does
not reset the per-lesson substate to READING — the reload effect is keyed on the
active lesson id, which does not change — contradicting the claim that selecting
any non-locked target resets the substate. -/
theorem C4_counterexample :
    statusAt c4course 0 0 = some LessonStatus.unlocked
    ∧ (selectLesson c4course ViewStage.QUIZ 0 0).2 = ViewStage.QUIZ := by
  decide

/-- C4 (amended): selecting a locked lesson is a silent no-op (indices and
substate unchanged, no error surfaced); selecting a non-locked target sets
currentModuleIndex/currentLessonIndex to the target — so exactly one lesson (the
one at that index pair) is current afterwards — leaves every lesson untouched,
and resets the substate to READING exactly when the target lesson's id differs
from the active lesson's id; re-selecting the already-active lesson leaves the
substate unchanged. -/
theorem C4_amended :
    ∀ (c : Course) (stage : ViewStage) (m l : Nat) (t : Lesson),
      lessonAt c.modules m l = some t →
      (t.status = LessonStatus.locked → selectLesson c stage m l = (c, stage))
      ∧ (t.status ≠ LessonStatus.locked →
          ((selectLesson c stage m l).1.currentModuleIndex = m
          ∧ (selectLesson c stage m l).1.currentLessonIndex = l
          ∧ (selectLesson c stage m l).1.modules = c.modules
          ∧ (some t.id ≠ activeLessonId c → (selectLesson c stage m l).2 = ViewStage.READING)
          ∧ (some t.id = activeLessonId c → (selectLesson c stage m l).2 = stage))) := by
  intro c stage m l t ht
  constructor
  · intro hlk
    unfold selectLesson handleLessonSelect
    rw [ht]
    simp [hlk]
  · intro hnl
    have hsel : handleLessonSelect c m l = { c with currentModuleIndex := m, currentLessonIndex := l } := by
      unfold handleLessonSelect
      rw [ht]
      simp [hnl]
    have hid : activeLessonId (handleLessonSelect c m l) = some t.id := by
      rw [hsel]
      unfold activeLessonId
      show (lessonAt c.modules m l).map _ = _
      rw [ht]
      rfl
    refine ⟨?_, ?_, ?_, ?_, ?_⟩
    · unfold selectLesson
      simp only [hsel]
      split <;> rfl
    · unfold selectLesson
      simp only [hsel]
      split <;> rfl
    · unfold selectLesson
      simp only [hsel]
      split <;> rfl
    · intro hne
      unfold selectLesson
      show (if activeLessonId (handleLessonSelect c m l) = activeLessonId c
          then (handleLessonSelect c m l, stage)
          else (handleLessonSelect c m l, ViewStage.READING)).2 = ViewStage.READING
      rw [hid, if_neg (fun hh => hne hh)]
    · intro heq
      unfold selectLesson
      show (if activeLessonId (handleLessonSelect c m l) = activeLessonId c
          then (handleLessonSelect c m l, stage)
          else (handleLessonSelect c m l, ViewStage.READING)).2 = stage
      rw [hid, if_pos heq]

/-- Witness for C4 (amended) at a concrete input: selecting the completed lesson
(0,1) of the example course from the active lesson (0,0) moves the indices and
resets the substate to READING. -/
theorem C4_amended_witness :
    (selectLesson c2course ViewStage.QUIZ 0 1).1.currentLessonIndex = 1
    ∧ (selectLesson c2course ViewStage.QUIZ 0 1).2 = ViewStage.READING :=
  ⟨((C4_amended c2course ViewStage.QUIZ 0 1 c4target (by decide)).2 (by decide)).2.1,
   ((C4_amended c2course ViewStage.QUIZ 0 1 c4target (by decide)).2 (by decide)).2.2.2.1 (by decide)⟩

end NeuroLearn

namespace NeuroLearn

/-- C5: a lesson whose content, quiz, codingChallenges and illustration are all
cached is returned unchanged by loadLesson with zero gateway calls (so a repeat
visit is a no-op too); and for an uncached lesson whose generation succeeds
(non-empty content, non-empty illustration), the first load issues exactly one
call per generator and the second load issues zero — one underlying gateway call
per field in total across the two loads. -/
theorem C5_lesson_cache :
    (∀ (gw : GenOracle) (ls : Lesson),
      jsTruthy ls.content = true → jsTruthy ls.imageUrl = true →
      ls.quiz.isSome = true → ls.codingChallenges.isSome = true →
      loadLesson gw ls = (ls, ⟨0, 0, 0, 0⟩)
      ∧ loadLesson gw (loadLesson gw ls).1 = (ls, ⟨0, 0, 0, 0⟩))
    ∧ (∀ (gw : GenOracle) (ls : Lesson) (img : String),
      jsTruthy ls.content = false → gw.contentText ≠ "" →
      gw.imgData = some img → img ≠ "" →
      (loadLesson gw ls).2 = ⟨1, 1, 1, 1⟩
      ∧ loadLesson gw (loadLesson gw ls).1 = ((loadLesson gw ls).1, ⟨0, 0, 0, 0⟩)) := by
  constructor
  · intro gw ls h1 h2 h3 h4
    have hload : loadLesson gw ls = (ls, ⟨0, 0, 0, 0⟩) := by
      unfold loadLesson
      rw [if_pos h1]
      rw [if_neg (by simp [h2])]
    exact ⟨hload, by rw [hload]; exact hload⟩
  · intro gw ls img h1 h2 h3 h4
    have hload : loadLesson gw ls =
        ({ ls with
            content := some gw.contentText, quiz := some gw.quizData,
            codingChallenges := some gw.challengeData, imageUrl := imgOrNone gw.imgData },
         ⟨1, 1, 1, 1⟩) := by
      unfold loadLesson
      rw [if_neg (by simp [h1])]
    have himg : imgOrNone gw.imgData = some img := by
      simp [imgOrNone, h3, h4]
    constructor
    · rw [hload]
    · rw [hload]
      unfold loadLesson
      rw [if_pos (by simp [jsTruthy]; exact h2)]
      rw [if_neg (by simp [himg, jsTruthy, h4])]

/-- Witness for C5 at concrete inputs: the cached example lesson loads with zero
gateway calls, and loading the uncached example lesson twice issues exactly one
round of calls. -/
theorem C5_lesson_cache_witness :
    loadLesson c5oracle c5cached = (c5cached, ⟨0, 0, 0, 0⟩)
    ∧ (loadLesson c5oracle c5uncached).2 = ⟨1, 1, 1, 1⟩ :=
  ⟨(C5_lesson_cache.1 c5oracle c5cached (by decide) (by decide) (by decide) (by decide)).1,
   (C5_lesson_cache.2 c5oracle c5uncached "img" (by decide) (by decide) (by decide) (by decide)).1⟩

/-- C6: every course produced by a successful roadmap generation has the very
first lesson of the very first module unlocked and every other lesson locked. -/
theorem C6_initial_statuses :
    ∀ (payload : Option RoadmapPayload) (mods : List Module),
      generateRoadmap payload = Except.ok mods →
      ∀ (m l : Nat) (st : LessonStatus), statusIn mods m l = some st →
        st = (if m = 0 ∧ l = 0 then LessonStatus.unlocked else LessonStatus.locked) := by
  intro payload mods hok m l st hst
  have hmods : ∃ raw, mods = roadmapModules raw := by
    cases payload with
    | none => exact Except.noConfusion hok
    | some p =>
      cases p with
      | arr ms => exact ⟨ms, (Except.ok.inj hok).symm⟩
      | objModules ms => exact ⟨ms, (Except.ok.inj hok).symm⟩
      | objData ms => exact ⟨ms, (Except.ok.inj hok).symm⟩
      | objOther => exact Except.noConfusion hok
  obtain ⟨raw, hraw⟩ := hmods
  subst hraw
  rw [statusIn_roadmapModules] at hst
  cases hb : (raw[m]?).bind fun rm => rm.lessons[l]? with
  | none => rw [hb] at hst; exact Option.noConfusion hst
  | some rl =>
    rw [hb] at hst
    exact (Option.some.injEq _ _).mp hst |>.symm

/-- Witness for C6 at a concrete input: in the course generated from the
two-module payload, lesson (0,0) is unlocked and lesson (1,0) is locked. -/
theorem C6_initial_statuses_witness :
    LessonStatus.unlocked = (if 0 = 0 ∧ 0 = 0 then LessonStatus.unlocked else LessonStatus.locked)
    ∧ LessonStatus.locked = (if 1 = 0 ∧ 0 = 0 then LessonStatus.unlocked else LessonStatus.locked) :=
  ⟨C6_initial_statuses (some (.arr c6raw)) (roadmapModules c6raw) rfl 0 0
     LessonStatus.unlocked (by decide),
   C6_initial_statuses (some (.arr c6raw)) (roadmapModules c6raw) rfl 1 0
     LessonStatus.locked (by decide)⟩

/-- C7: a roadmap response that fails to parse (a JSON error, or a parsed value
with none of the expected envelope shapes) makes generateRoadmap fail, and when
the final clarification answer triggers generation with such a failure, the
handler adds no course, leaves the active course id unchanged, and returns the
app to the INITIAL state. -/
theorem C7_roadmap_failure :
    (generateRoadmap none = Except.error "Failed to parse Mistral roadmap JSON"
    ∧ generateRoadmap (some RoadmapPayload.objOther)
        = Except.error "TypeError: rawModules is undefined")
    ∧ ∀ (s : AppModel) (answer : String) (payload : Option RoadmapPayload)
        (newId : String) (now : Nat) (msg : String),
        generateRoadmap payload = Except.error msg →
        s.clarification.currentQuestionIndex + 1 ≥ s.clarification.questions.length →
        ((handleClarificationAnswer s answer (generateRoadmap payload) newId now).courses
            = s.courses
        ∧ (handleClarificationAnswer s answer (generateRoadmap payload) newId now).activeCourseId
            = s.activeCourseId
        ∧ (handleClarificationAnswer s answer (generateRoadmap payload) newId now).appState
            = AppState.INITIAL) := by
  refine ⟨⟨rfl, rfl⟩, ?_⟩
  intro s answer payload newId now msg herr hfin
  unfold handleClarificationAnswer
  rw [herr]
  simp only
  rw [if_pos hfin]
  exact ⟨rfl, rfl, rfl⟩

/-- Witness for C7 at a concrete input: a malformed payload on the final answer
leaves the example app state's courses and active id unchanged and resets to
INITIAL. -/
theorem C7_roadmap_failure_witness :
    (handleClarificationAnswer c7state "ans" (generateRoadmap (some RoadmapPayload.objOther))
        "id2" 1).courses = c7state.courses
    ∧ (handleClarificationAnswer c7state "ans" (generateRoadmap (some RoadmapPayload.objOther))
        "id2" 1).appState = AppState.INITIAL :=
  ⟨(C7_roadmap_failure.2 c7state "ans" (some RoadmapPayload.objOther) "id2" 1
      "TypeError: rawModules is undefined" rfl (by decide)).1,
   (C7_roadmap_failure.2 c7state "ans" (some RoadmapPayload.objOther) "id2" 1
      "TypeError: rawModules is undefined" rfl (by decide)).2.2⟩

/-- C8: expanding a course appends the mapped new modules: the original prefix
is unchanged (deep equality), the module count grows by exactly the number of
new modules, the course's identity and current indices are untouched, and every
lesson of every appended module has status locked. -/
theorem C8_expand_append :
    ∀ (c : Course) (raw : List RawModule),
      (handleConfirmExpand c (expandCourse c.modules.length raw)).modules.take c.modules.length
        = c.modules
      ∧ (handleConfirmExpand c (expandCourse c.modules.length raw)).modules.length
        = c.modules.length + raw.length
      ∧ (handleConfirmExpand c (expandCourse c.modules.length raw)).id = c.id
      ∧ (handleConfirmExpand c (expandCourse c.modules.length raw)).topic = c.topic
      ∧ (handleConfirmExpand c (expandCourse c.modules.length raw)).currentModuleIndex
        = c.currentModuleIndex
      ∧ (handleConfirmExpand c (expandCourse c.modules.length raw)).currentLessonIndex
        = c.currentLessonIndex
      ∧ ∀ (m l : Nat) (st : LessonStatus), c.modules.length ≤ m →
          statusIn (handleConfirmExpand c (expandCourse c.modules.length raw)).modules m l
            = some st →
          st = LessonStatus.locked := by
  intro c raw
  refine ⟨?_, ?_, rfl, rfl, rfl, rfl, ?_⟩
  · show (c.modules ++ expandCourse c.modules.length raw).take c.modules.length = c.modules
    exact List.take_left c.modules _
  · show (c.modules ++ expandCourse c.modules.length raw).length = c.modules.length + raw.length
    rw [List.length_append, length_expandCourse]
  · intro m l st hm hst
    have hmod : (handleConfirmExpand c (expandCourse c.modules.length raw)).modules
        = c.modules ++ expandCourse c.modules.length raw := rfl
    rw [hmod, statusIn_append, if_neg (by omega), statusIn_expandCourse] at hst
    cases hb : (raw[m - c.modules.length]?).bind fun rm => rm.lessons[l]? with
    | none => rw [hb] at hst; exact Option.noConfusion hst
    | some rl =>
      rw [hb] at hst
      exact ((Option.some.injEq _ _).mp hst).symm

/-- Witness for C8 at concrete inputs: the example expansion keeps the original
module, grows the count by one, and the appended lesson is locked. -/
theorem C8_expand_append_witness :
    (handleConfirmExpand c8course (expandCourse c8course.modules.length c8raw)).modules.take
        c8course.modules.length = c8course.modules
    ∧ LessonStatus.locked = LessonStatus.locked :=
  ⟨(C8_expand_append c8course c8raw).1,
   (C8_expand_append c8course c8raw).2.2.2.2.2.2 1 0 LessonStatus.locked
     (by decide) (by decide)⟩

/-- C9 counterexample: quiz-generation failure does yield the empty quiz, but an
empty quiz is not a pass-through: isAllAnswered is false (quiz.length > 0 fails)
so the submit gate never enables, and completing the lesson through the only
remaining route — skip — leaves the next lesson locked, so progression stops. -/
theorem C9_counterexample :
    generateQuiz none = []
    ∧ isAllAnswered [] [] = false
    ∧ statusAt (handleSkipToPractice c9course).1 0 0 = some LessonStatus.completed
    ∧ statusAt (handleSkipToPractice c9course).1 0 1 = some LessonStatus.locked := by
  decide

/-- C9 (amended): when quiz generation fails (a thrown error or a response with
no recognisable questions) generateQuiz returns the empty sequence rather than
raising; but with an empty quiz, isAllAnswered is false for every answer list, so
the quiz step cannot be passed; the lesson can still be marked completed via the
skip action, which changes no other lesson's status — in particular the next
lesson stays locked and progression does not continue. -/
theorem C9_amended :
    (∀ p : Option QuizPayload, p = none ∨ p = some QuizPayload.other → generateQuiz p = [])
    ∧ (∀ answers : List (Option Nat), isAllAnswered [] answers = false)
    ∧ (∀ (c : Course) (m l : Nat),
        ¬(m = c.currentModuleIndex ∧ l = c.currentLessonIndex) →
        statusAt (handleSkipToPractice c).1 m l = statusAt c m l) := by
  refine ⟨?_, ?_, ?_⟩
  · intro p hp
    rcases hp with h | h <;> rw [h] <;> rfl
  · intro answers
    unfold isAllAnswered
    simp
  · intro c m l h
    show statusAt (markLessonCompleted c) m l = statusAt c m l
    rw [statusAt_markLessonCompleted, if_neg h]

/-- Witness for C9 (amended) at concrete inputs: the failed-parse payload yields
an empty quiz, and skipping on the example course leaves lesson 2 untouched. -/
theorem C9_amended_witness :
    generateQuiz (some QuizPayload.other) = []
    ∧ statusAt (handleSkipToPractice c9course).1 0 1 = statusAt c9course 0 1 :=
  ⟨C9_amended.1 (some QuizPayload.other) (Or.inr rfl),
   C9_amended.2.2 c9course 0 1 (by decide)⟩

/-- C10: the skip action completes only the active lesson: the current indices
are unchanged, every other lesson's status is unchanged (in particular the next
lesson stays locked), the active lesson — when it exists — becomes completed,
and no operation other than submitQuiz ever brings a lesson to unlocked that was
not already unlocked. -/
theorem C10_skip_frame :
    ∀ (c : Course),
      ((handleSkipToPractice c).1.currentModuleIndex = c.currentModuleIndex
        ∧ (handleSkipToPractice c).1.currentLessonIndex = c.currentLessonIndex)
      ∧ (∀ m l, ¬(m = c.currentModuleIndex ∧ l = c.currentLessonIndex) →
          statusAt (handleSkipToPractice c).1 m l = statusAt c m l)
      ∧ (∀ st, statusAt c c.currentModuleIndex c.currentLessonIndex = some st →
          statusAt (handleSkipToPractice c).1 c.currentModuleIndex c.currentLessonIndex
            = some LessonStatus.completed)
      ∧ (∀ (op : ProgOp) (m l : Nat), op ≠ ProgOp.submit →
          statusAt (applyOp c op) m l = some LessonStatus.unlocked →
          statusAt c m l = some LessonStatus.unlocked) := by
  intro c
  refine ⟨⟨rfl, rfl⟩, ?_, ?_, ?_⟩
  · intro m l h
    show statusAt (markLessonCompleted c) m l = statusAt c m l
    rw [statusAt_markLessonCompleted, if_neg h]
  · intro st hst
    show statusAt (markLessonCompleted c) _ _ = _
    rw [statusAt_markLessonCompleted, if_pos ⟨rfl, rfl⟩, hst]
    rfl
  · intro op m l hop hst
    cases op with
    | select m0 l0 => rw [applyOp, statusAt_handleLessonSelect] at hst; exact hst
    | skip =>
      rw [applyOp, statusAt_markLessonCompleted] at hst
      by_cases hc : m = c.currentModuleIndex ∧ l = c.currentLessonIndex
      · rw [if_pos hc] at hst
        cases hx : statusAt c m l with
        | none => rw [hx] at hst; exact Option.noConfusion hst
        | some y =>
          rw [hx] at hst
          exact absurd ((Option.some.injEq _ _).mp hst) (by intro hcontra; exact LessonStatus.noConfusion hcontra)
      · rw [if_neg hc] at hst; exact hst
    | submit => exact absurd rfl hop
    | expand raw =>
      rw [applyOp] at hst
      have hmod : statusIn (c.modules ++ expandCourse c.modules.length raw) m l
          = some LessonStatus.unlocked := hst
      rw [statusIn_append] at hmod
      by_cases hm : m < c.modules.length
      · rw [if_pos hm] at hmod; exact hmod
      · rw [if_neg hm, statusIn_expandCourse] at hmod
        cases hb : (raw[m - c.modules.length]?).bind fun rm => rm.lessons[l]? with
        | none => rw [hb] at hmod; exact Option.noConfusion hmod
        | some rl =>
          rw [hb] at hmod
          exact absurd ((Option.some.injEq _ _).mp hmod)
            (by intro hcontra; exact LessonStatus.noConfusion hcontra)

/-- Witness for C10 at concrete inputs: skipping on the example course keeps the
indices, completes lesson 1 and leaves lesson 2 alone. -/
theorem C10_skip_frame_witness :
    statusAt (handleSkipToPractice c10course).1 0 1 = statusAt c10course 0 1
    ∧ statusAt (handleSkipToPractice c10course).1 c10course.currentModuleIndex
        c10course.currentLessonIndex = some LessonStatus.completed :=
  ⟨(C10_skip_frame c10course).2.1 0 1 (by decide),
   (C10_skip_frame c10course).2.2.1 LessonStatus.unlocked (by decide)⟩

end NeuroLearn
